import Mathlib

/-!
Shallow embedding of the decision core of the FindHotel/python-sdk repository
(files src/optimizely/decision_service.py and src/optimizely/event_dispatcher.py).

External collaborators (project configuration lookups, the audience-condition
evaluator, the deterministic bucketer, the user-profile service and the HTTP
transport) are modelled as abstract function-valued parameters, exactly as the
source consumes them: read-only lookups returning an optional result, and
black boxes returning a result together with a list of reason strings.
Mutable state (the forced-variation map, the user-profile tracker) is passed
and returned explicitly.  The rollout rule-walking while-loop is embedded with
explicit fuel: a result of none means the loop performed that many iterations
without returning, so a family of none results for every fuel value witnesses
non-termination of the source loop.
-/

namespace Optimizely

/-- Scalar user-attribute values (the spec's data model: attribute mapping
string to scalar). -/
inductive AttrValue
  | str (s : String)
  | num (n : Int)
  | boolean (b : Bool)
deriving DecidableEq, Repr

/-- Association-list lookup with propositional key equality, modelling a
Python dict's membership and item access. -/
def alookup {α : Type} : List (String × α) → String → Option α
  | [], _ => none
  | p :: rest, k => if p.1 = k then some p.2 else alookup rest k

/-- Variation entity: id and key, as used by decision_service.py. -/
structure Variation where
  id : String
  key : String
deriving DecidableEq, Repr

/-- Experiment entity: id, key, status, audience conditions (serialized
expression or legacy id list) and the per-experiment whitelist map
forcedVariations from user id to variation key. -/
structure Experiment where
  id : String
  key : String
  status : String
  audienceIds : List String
  audienceConditions : Option String
  forcedVariations : List (String × String)
deriving DecidableEq, Repr

/-- Audience specification handed to the black-box evaluator: either the
serialized condition expression or the legacy audience-id list. -/
inductive AudienceSpec
  | conds (c : String)
  | ids (l : List String)
deriving DecidableEq, Repr

/-- Modelled from the spec: entities.Experiment.get_audience_conditions_or_ids
is not under src; the spec's data model gives an experiment an ordered
audience-condition expression or a legacy audience-id list, the expression
taking precedence when present. -/
def Experiment.get_audience_conditions_or_ids (e : Experiment) : AudienceSpec :=
  match e.audienceConditions with
  | some c => AudienceSpec.conds c
  | none => AudienceSpec.ids e.audienceIds

/-- Rollout entity: id (its rule experiments are obtained from config). -/
structure Rollout where
  id : String
deriving DecidableEq, Repr

/-- FeatureFlag entity: key, rollout id (empty string when absent, matching
the Python falsiness test on feature.rolloutId) and ordered associated
experiment ids. -/
structure FeatureFlag where
  id : String
  key : String
  rolloutId : String
  experimentIds : List String
deriving DecidableEq, Repr

/-- User context: user id, attribute map, and the per-context forced-decision
overrides keyed by (flag key, rule key). -/
structure UserContext where
  user_id : String
  attributes : List (String × AttrValue)
  forced_decisions : List ((String × String) × String)
deriving DecidableEq, Repr

/-- Modelled from the spec: OptimizelyUserContext.get_forced_decision is not
under src; the spec describes a context-scoped override lookup keyed by
(flag key, optional rule key) returning the override's variation key. -/
def UserContext.get_forced_decision (u : UserContext) (flag_key rule_key : String) :
    Option String :=
  match u.forced_decisions.find? (fun p => p.1.1 = flag_key ∧ p.1.2 = rule_key) with
  | some p => some p.2
  | none => none

/-- Read-only project-configuration lookups, exactly the abstract capabilities
the decision core consumes (spec section 6). -/
structure ProjectConfig where
  get_experiment_from_key : String → Option Experiment
  get_experiment_from_id : String → Option Experiment
  get_variation_from_key : String → String → Option Variation
  get_variation_from_id : String → String → Option Variation
  get_rollout_from_id : String → Option Rollout
  get_rollout_experiments : Rollout → List Experiment
  get_flag_variation : String → String → Option Variation

/-- Which log-template set the audience evaluator is called with. -/
inductive LogTemplateSet
  | experimentLogs
  | rolloutLogs
deriving DecidableEq, Repr

/-- Black-box external collaborators: the audience-condition evaluator and the
deterministic bucketer, with the exact argument lists the source passes. -/
structure Env where
  audience_eval : ProjectConfig → AudienceSpec → LogTemplateSet → String → UserContext →
    Bool × List String
  bucket : ProjectConfig → Experiment → String → String → Option Variation × List String

/-- Decision sources enum (enums.DecisionSources). -/
inductive DecisionSource
  | EXPERIMENT
  | FEATURE_TEST
  | ROLLOUT
deriving DecidableEq, Repr

/-- Decision named tuple: selected experiment, variation and source. -/
structure Decision where
  experiment : Option Experiment
  variation : Option Variation
  source : DecisionSource
deriving DecidableEq, Repr

/-- Map of user ids to maps of experiment ids to variation ids, the
DecisionService.forced_variation_map state. -/
abbrev ForcedVariationMap := List (String × List (String × String))

/-- Modelled from the spec: helpers/experiment.is_experiment_running is not
under src; spec section 4.3 step 1 requires the experiment to be in the
Running state. -/
def is_experiment_running (experiment : Experiment) : Bool :=
  experiment.status = "Running"

/-- Modelled from the spec: helpers/validator.is_non_empty_string is not under
src; spec section 7 classes an empty variation key as invalid input. -/
def is_non_empty_string (s : String) : Bool :=
  s ≠ ""

/-- Modelled from the spec: user_profile.UserProfile is not under src; the
spec's data model gives it a user id and a map from experiment id to
variation id. -/
structure UserProfile where
  user_id : String
  experiment_bucket_map : List (String × String)
deriving DecidableEq, Repr

/-- Modelled from the spec: UserProfile.get_variation_for_experiment returns
the variation id recorded for an experiment id, if any. -/
def UserProfile.get_variation_for_experiment (p : UserProfile) (experiment_id : String) :
    Option String :=
  alookup p.experiment_bucket_map experiment_id

/-- Modelled from the spec: user_profile.UserProfileTracker is not under src;
it wraps the loaded profile and remembers whether any per-experiment decision
mutated it. -/
structure UserProfileTracker where
  user_profile : UserProfile
  profile_updated : Bool
deriving DecidableEq, Repr

/-- Modelled from the spec: the user-profile service capability, a lookup from
user id to an optionally stored profile. -/
structure UserProfileService where
  lookup : String → Option UserProfile

/-- Observable calls on the user-profile service, used to state the
one-load / at-most-one-save property of a batch decision. -/
inductive ProfileEvent
  | load (user_id : String)
  | save (profile : UserProfile)
deriving DecidableEq, Repr

/-- Association-list update: replace the value at the first-bound key,
keeping the rest of the map. -/
def replaceEntry {α : Type} (l : List (String × α)) (k : String) (v : α) :
    List (String × α) :=
  l.map (fun p => if p.1 = k then (k, v) else p)

/-- Dict-style insert-or-update on an inner experiment-to-variation map. -/
def setInner (inner : List (String × String)) (k v : String) : List (String × String) :=
  match alookup inner k with
  | none => inner ++ [(k, v)]
  | some _ => replaceEntry inner k v

/-- Modelled from the spec: UserProfileTracker.update_user_profile records the
(experiment, variation) pair in the profile and marks it updated. -/
def update_user_profile (t : UserProfileTracker) (experiment : Experiment)
    (variation : Variation) : UserProfileTracker :=
  { user_profile :=
      { t.user_profile with
        experiment_bucket_map :=
          setInner t.user_profile.experiment_bucket_map experiment.id variation.id },
    profile_updated := true }

/-- Modelled from the spec: UserProfileTracker.load_user_profile performs one
service lookup for the user and wraps the result (or a fresh empty profile)
in a tracker. -/
def load_user_profile (ups : UserProfileService) (user_id : String) :
    UserProfileTracker × List ProfileEvent :=
  (⟨(ups.lookup user_id).getD ⟨user_id, []⟩, false⟩, [ProfileEvent.load user_id])

/-- Modelled from the spec: UserProfileTracker.save_user_profile persists the
profile through the service only when some decision mutated it. -/
def save_user_profile (t : UserProfileTracker) : List ProfileEvent :=
  if t.profile_updated then [ProfileEvent.save t.user_profile] else []

/-- Reserved bucketing-id attribute key (enums.ControlAttributes.BUCKETING_ID). -/
def bucketing_id_attribute : String := "$opt_bucketing_id"

/-- Warning appended when the bucketing-id attribute exists but is not a
string. -/
def bucketing_id_warning : String :=
  "Bucketing ID attribute is not a string. Defaulted to user_id."

/-- Embeds DecisionService._get_bucketing_id: the reserved attribute's value
when present and a string, else the user id, with a warning reason when the
attribute existed but was non-string. -/
def get_bucketing_id (user_id : String) (attributes : Option (List (String × AttrValue))) :
    String × List String :=
  let attrs := attributes.getD []
  match alookup attrs bucketing_id_attribute with
  | some (AttrValue.str s) => (s, [])
  | some _ => (user_id, [bucketing_id_warning])
  | none => (user_id, [])

/-- Dict-style delete of the (user, experiment) entry, mirroring the source:
nothing changes when the user or the experiment entry is absent, and a present
entry is removed from the user's inner map (the user entry itself stays). -/
def eraseMapping (fvm : ForcedVariationMap) (user_id experiment_id : String) :
    ForcedVariationMap :=
  match alookup fvm user_id with
  | none => fvm
  | some inner =>
    match alookup inner experiment_id with
    | none => fvm
    | some _ => replaceEntry fvm user_id (inner.filter (fun p => p.1 ≠ experiment_id))

/-- Dict-style insert of the (user, experiment) to variation entry, creating
the user's inner map when absent. -/
def setMapping (fvm : ForcedVariationMap) (user_id experiment_id variation_id : String) :
    ForcedVariationMap :=
  match alookup fvm user_id with
  | none => fvm ++ [(user_id, [(experiment_id, variation_id)])]
  | some inner => replaceEntry fvm user_id (setInner inner experiment_id variation_id)

/-- Observable content of the forced-variation map at a (user, experiment)
pair. -/
def lookupMapping (fvm : ForcedVariationMap) (user_id experiment_id : String) :
    Option String :=
  (alookup fvm user_id).bind (fun inner => alookup inner experiment_id)

/-- Embeds DecisionService.set_forced_variation: resolves the experiment by
key, deletes the mapping on a null variation key (always succeeding), rejects
an empty or unknown variation key, and otherwise stores the resolved
variation id.  Returns the success flag and the updated map. -/
def set_forced_variation (config : ProjectConfig) (fvm : ForcedVariationMap)
    (experiment_key user_id : String) (variation_key : Option String) :
    Bool × ForcedVariationMap :=
  match config.get_experiment_from_key experiment_key with
  | none => (false, fvm)
  | some experiment =>
    match variation_key with
    | none => (true, eraseMapping fvm user_id experiment.id)
    | some vk =>
      if ¬ is_non_empty_string vk then (false, fvm)
      else
        match config.get_variation_from_key experiment_key vk with
        | none => (false, fvm)
        | some forced_variation =>
          (true, setMapping fvm user_id experiment.id forced_variation.id)

/-- Reason appended when a forced-variation-map entry resolves. -/
def forced_map_message (variation_key experiment_key user_id : String) : String :=
  "Variation \"" ++ variation_key ++ "\" is mapped to experiment \"" ++ experiment_key ++
    "\" and user \"" ++ user_id ++ "\" in the forced variation map"

/-- Embeds DecisionService.get_forced_variation: resolves the stored variation
id for (user, experiment) back to a variation object through config, in the
source's exact check order; only the success path appends a reason. -/
def get_forced_variation (config : ProjectConfig) (fvm : ForcedVariationMap)
    (experiment_key user_id : String) : Option Variation × List String :=
  match alookup fvm user_id with
  | none => (none, [])
  | some experiment_to_variation_map =>
    match config.get_experiment_from_key experiment_key with
    | none => (none, [])
    | some experiment =>
      if experiment_to_variation_map.isEmpty then (none, [])
      else
        match alookup experiment_to_variation_map experiment.id with
        | none => (none, [])
        | some variation_id =>
          match config.get_variation_from_id experiment_key variation_id with
          | none => (none, [])
          | some variation =>
            (some variation, [forced_map_message variation.key experiment_key user_id])

/-- Reason appended when a whitelist entry resolves. -/
def whitelist_message (user_id forced_variation_key : String) : String :=
  "User \"" ++ user_id ++ "\" is forced in variation \"" ++ forced_variation_key ++ "\"."

/-- Embeds DecisionService.get_whitelisted_variation: looks the user up in the
experiment's forcedVariations whitelist and resolves the stored variation key
through config. -/
def get_whitelisted_variation (config : ProjectConfig) (experiment : Experiment)
    (user_id : String) : Option Variation × List String :=
  match alookup experiment.forcedVariations user_id with
  | none => (none, [])
  | some forced_variation_key =>
    match config.get_variation_from_key experiment.key forced_variation_key with
    | none => (none, [])
    | some forced_variation =>
      (some forced_variation, [whitelist_message user_id forced_variation_key])

/-- Embeds DecisionService.get_stored_variation: resolves the profile's stored
variation id for the experiment through config; a falsy (empty) stored id and
an unresolvable id both yield none. -/
def get_stored_variation (config : ProjectConfig) (experiment : Experiment)
    (user_profile : UserProfile) : Option Variation :=
  match user_profile.get_variation_for_experiment experiment.id with
  | none => none
  | some variation_id =>
    if variation_id = "" then none
    else config.get_variation_from_id experiment.key variation_id

/-- Decide option controlling use of the user-profile service
(OptimizelyDecideOption.IGNORE_USER_PROFILE_SERVICE). -/
def ignore_user_profile_service : String := "ignore_user_profile_service"

/-- Reason appended when the experiment is not running. -/
def not_running_message (experiment_key : String) : String :=
  "Experiment \"" ++ experiment_key ++ "\" is not running."

/-- Reason appended when a profile-stored decision is returned. -/
def stored_message (variation_key experiment_key user_id : String) : String :=
  "Returning previously activated variation ID \"" ++ variation_key ++
    "\" of experiment \"" ++ experiment_key ++ "\" for user \"" ++ user_id ++
    "\" from user profile."

/-- Reason appended when the user fails the experiment's audience conditions. -/
def audience_fail_message (user_id experiment_key : String) : String :=
  "User \"" ++ user_id ++ "\" does not meet conditions to be in experiment \"" ++
    experiment_key ++ "\"."

/-- Reason appended when the user is bucketed into a variation. -/
def in_variation_message (user_id variation_key experiment_key : String) : String :=
  "User \"" ++ user_id ++ "\" is in variation \"" ++ variation_key ++
    "\" of experiment " ++ experiment_key ++ "."

/-- Reason appended when bucketing yields no variation. -/
def no_variation_message (user_id : String) : String :=
  "User \"" ++ user_id ++ "\" is in no variation."

/-- Embeds DecisionService.get_variation: running check, then forced-variation
store, then whitelist, then profile-stored decision, then audience evaluation
and bucketing, short-circuiting at the first layer that yields a variation.
The caller-supplied reasons are prepended; the possibly updated tracker is
returned last. -/
def get_variation (env : Env) (config : ProjectConfig) (experiment : Experiment)
    (user_context : UserContext) (user_profile_tracker : Option UserProfileTracker)
    (fvm : ForcedVariationMap) (reasons : List String) (options : List String) :
    Option Variation × List String × Option UserProfileTracker :=
  let user_id := user_context.user_id
  let ignore_user_profile := ignore_user_profile_service ∈ options
  let decide_reasons := reasons
  if ¬ is_experiment_running experiment then
    (none, decide_reasons ++ [not_running_message experiment.key], user_profile_tracker)
  else
    let fv := get_forced_variation config fvm experiment.key user_id
    let decide_reasons := decide_reasons ++ fv.2
    match fv.1 with
    | some variation => (some variation, decide_reasons, user_profile_tracker)
    | none =>
      let wl := get_whitelisted_variation config experiment user_id
      let decide_reasons := decide_reasons ++ wl.2
      match wl.1 with
      | some variation => (some variation, decide_reasons, user_profile_tracker)
      | none =>
        let stored : Option Variation :=
          match user_profile_tracker with
          | some t =>
            if ignore_user_profile then none
            else get_stored_variation config experiment t.user_profile
          | none => none
        match stored with
        | some variation =>
          (some variation,
            decide_reasons ++ [stored_message variation.key experiment.key user_id],
            user_profile_tracker)
        | none =>
          let audience := env.audience_eval config experiment.get_audience_conditions_or_ids
            LogTemplateSet.experimentLogs experiment.key user_context
          let decide_reasons := decide_reasons ++ audience.2
          if ¬ audience.1 then
            (none, decide_reasons ++ [audience_fail_message user_id experiment.key],
              user_profile_tracker)
          else
            let bid := get_bucketing_id user_id (some user_context.attributes)
            let decide_reasons := decide_reasons ++ bid.2
            let bucketed := env.bucket config experiment user_id bid.1
            let decide_reasons := decide_reasons ++ bucketed.2
            match bucketed.1 with
            | some variation =>
              let tracker2 :=
                if ignore_user_profile then user_profile_tracker
                else user_profile_tracker.map
                  (fun t => update_user_profile t experiment variation)
              (some variation,
                decide_reasons ++ [in_variation_message user_id variation.key experiment.key],
                tracker2)
            | none =>
              (none, decide_reasons ++ [no_variation_message user_id], user_profile_tracker)

/-- Reason for a forced decision resolved with a rule specified. -/
def forced_decision_message (variation_key flag_key rule_key user_id : String) : String :=
  "Variation (" ++ variation_key ++ ") is mapped to flag (" ++ flag_key ++
    "), rule (" ++ rule_key ++ ") and user (" ++ user_id ++ ") in the forced decision map."

/-- Reason for a forced decision resolved with no rule specified. -/
def forced_decision_no_rule_message (variation_key flag_key user_id : String) : String :=
  "Variation (" ++ variation_key ++ ") is mapped to flag (" ++ flag_key ++
    ") and user (" ++ user_id ++ ") in the forced decision map."

/-- Reason for a forced decision whose variation no longer resolves, with a
rule specified. -/
def forced_decision_invalid_message (flag_key rule_key user_id : String) : String :=
  "Invalid variation is mapped to flag (" ++ flag_key ++ "), rule (" ++ rule_key ++
    ") and user (" ++ user_id ++ ") in the forced decision map."

/-- Reason for a forced decision whose variation no longer resolves, with no
rule specified. -/
def forced_decision_invalid_no_rule_message (flag_key user_id : String) : String :=
  "Invalid variation is mapped to flag (" ++ flag_key ++ ") and user (" ++ user_id ++
    ") in the forced decision map."

/-- Embeds DecisionService.validated_forced_decision: looks up the per-context
forced decision for (flag key, rule key) and validates its variation key
against the config's flag-scoped variation lookup; an unresolvable key yields
none with a distinct invalid reason and the override is not cleared. -/
def validated_forced_decision (config : ProjectConfig) (flag_key rule_key : String)
    (user_context : UserContext) : Option Variation × List String :=
  match user_context.get_forced_decision flag_key rule_key with
  | none => (none, [])
  | some variation_key =>
    match config.get_flag_variation flag_key variation_key with
    | some variation =>
      (some variation,
        [if rule_key ≠ "" then
          forced_decision_message variation_key flag_key rule_key user_context.user_id
        else forced_decision_no_rule_message variation_key flag_key user_context.user_id])
    | none =>
      (none,
        [if rule_key ≠ "" then
          forced_decision_invalid_message flag_key rule_key user_context.user_id
        else forced_decision_invalid_no_rule_message flag_key user_context.user_id])

/-- Reason appended when the user meets a targeting rule's audience. -/
def meets_audience_message (user_id logging_key : String) : String :=
  "User \"" ++ user_id ++ "\" meets audience conditions for targeting rule " ++
    logging_key ++ "."

/-- Reason appended when the user fails a targeting rule's audience. -/
def not_meets_audience_message (user_id logging_key : String) : String :=
  "User \"" ++ user_id ++ "\" does not meet audience conditions for targeting rule " ++
    logging_key ++ "."

/-- Reason appended when the user is bucketed into a targeting rule. -/
def bucketed_message (user_id logging_key : String) : String :=
  "User \"" ++ user_id ++ "\" bucketed into a targeting rule " ++ logging_key ++ "."

/-- Reason appended when bucketing fails on a non-last matching rule. -/
def checking_everyone_else_message (user_id logging_key : String) : String :=
  "User \"" ++ user_id ++ "\" not bucketed into a targeting rule " ++ logging_key ++
    ". Checking \"Everyone Else\" rule now."

/-- One iteration of the while-loop of get_variation_for_rollout: either the
loop returns (inl: a Decision with accumulated reasons) or it re-enters with a
new index and accumulator (inr).  The source's continue branch for an
unresolvable rule id re-enters with the SAME index; failed bucketing on a
non-last matching rule re-enters at the last index; otherwise the index
advances by one. -/
def rolloutStep (env : Env) (config : ProjectConfig) (feature : FeatureFlag)
    (user_context : UserContext) (rollout_rules : List Experiment)
    (index : Nat) (acc : List String) :
    (Decision × List String) ⊕ (Nat × List String) :=
  if h : index < rollout_rules.length then
    let rule := rollout_rules[index]
    let fd := validated_forced_decision config feature.key rule.key user_context
    let acc := acc ++ fd.2
    match fd.1 with
    | some forced_decision_variation =>
      Sum.inl (⟨some rule, some forced_decision_variation, DecisionSource.ROLLOUT⟩, acc)
    | none =>
      let bid := get_bucketing_id user_context.user_id (some user_context.attributes)
      let acc := acc ++ bid.2
      let everyone_else := index = rollout_rules.length - 1
      let logging_key := if everyone_else then "Everyone Else" else toString (index + 1)
      match config.get_experiment_from_id rule.id with
      | none => Sum.inr (index, acc)
      | some rollout_rule =>
        let audience := env.audience_eval config
          rollout_rule.get_audience_conditions_or_ids LogTemplateSet.rolloutLogs
          logging_key user_context
        let acc := acc ++ audience.2
        if audience.1 then
          let acc := acc ++ [meets_audience_message user_context.user_id logging_key]
          let bucketed := env.bucket config rollout_rule user_context.user_id bid.1
          let acc := acc ++ bucketed.2
          match bucketed.1 with
          | some bucketed_variation =>
            Sum.inl (⟨some rule, some bucketed_variation, DecisionSource.ROLLOUT⟩,
              acc ++ [bucketed_message user_context.user_id logging_key])
          | none =>
            if ¬ everyone_else then
              Sum.inr (rollout_rules.length - 1,
                acc ++ [checking_everyone_else_message user_context.user_id logging_key])
            else
              Sum.inr (index + 1, acc)
        else
          Sum.inr (index + 1,
            acc ++ [not_meets_audience_message user_context.user_id logging_key])
  else
    Sum.inl (⟨none, none, DecisionSource.ROLLOUT⟩, acc)

/-- The while-loop of get_variation_for_rollout, driven by rolloutStep with
explicit fuel (one unit per iteration); none means the fuel ran out before
the loop returned. -/
def rolloutLoop (env : Env) (config : ProjectConfig) (feature : FeatureFlag)
    (user_context : UserContext) (rollout_rules : List Experiment) :
    Nat → Nat → List String → Option (Decision × List String)
  | 0, _, _ => none
  | fuel + 1, index, acc =>
    match rolloutStep env config feature user_context rollout_rules index acc with
    | Sum.inl result => some result
    | Sum.inr (index2, acc2) =>
      rolloutLoop env config feature user_context rollout_rules fuel index2 acc2

/-- Reason appended when the feature's rollout id resolves to no rollout. -/
def no_rollout_message (feature_key : String) : String :=
  "There is no rollout of feature " ++ feature_key ++ "."

/-- Reason appended when the rollout has no rule experiments. -/
def no_experiments_message (rollout_id : String) : String :=
  "Rollout " ++ rollout_id ++ " has no experiments."

/-- Embeds DecisionService.get_variation_for_rollout: immediate null decision
when the feature has no rollout id, the rollout is unknown or it has no rules;
otherwise the fuelled rule-walking loop starting at index 0. -/
def get_variation_for_rollout (env : Env) (config : ProjectConfig)
    (feature : FeatureFlag) (user_context : UserContext) (fuel : Nat) :
    Option (Decision × List String) :=
  if feature.rolloutId = "" then
    some (⟨none, none, DecisionSource.ROLLOUT⟩, [])
  else
    match config.get_rollout_from_id feature.rolloutId with
    | none => some (⟨none, none, DecisionSource.ROLLOUT⟩, [no_rollout_message feature.key])
    | some rollout =>
      let rollout_rules := config.get_rollout_experiments rollout
      if rollout_rules.isEmpty then
        some (⟨none, none, DecisionSource.ROLLOUT⟩, [no_experiments_message rollout.id])
      else
        rolloutLoop env config feature user_context rollout_rules fuel 0 []

/-- One experiment of the per-feature experiment loop of
get_variations_for_feature_list: the forced-decision check scoped to
(feature key, experiment key), falling back to the full experiment resolver.
Returns the resolved variation, the threaded tracker and the accumulated
feature reasons (the resolver's returned reasons, which already start with
the reasons passed in, are appended after them, as the source extends the
same list it passed). -/
def try_experiment_step (env : Env) (config : ProjectConfig) (feature : FeatureFlag)
    (user_context : UserContext) (fvm : ForcedVariationMap) (options : List String)
    (tracker : Option UserProfileTracker) (feature_reasons : List String)
    (experiment : Experiment) :
    Option Variation × Option UserProfileTracker × List String :=
  let fd := validated_forced_decision config feature.key experiment.key user_context
  let feature_reasons := feature_reasons ++ fd.2
  match fd.1 with
  | some v => (some v, tracker, feature_reasons)
  | none =>
    let r := get_variation env config experiment user_context tracker fvm
      feature_reasons options
    (r.1, r.2.2, feature_reasons ++ r.2.1)

/-- The per-feature experiment-id loop of get_variations_for_feature_list:
ids whose experiment does not resolve are skipped; the first experiment that
yields a non-null variation produces a FEATURE_TEST Decision and stops the
loop. -/
def try_experiments (env : Env) (config : ProjectConfig) (feature : FeatureFlag)
    (user_context : UserContext) (fvm : ForcedVariationMap) (options : List String) :
    List String → Option UserProfileTracker → List String →
    Option (Decision × List String) × Option UserProfileTracker × List String
  | [], tracker, feature_reasons => (none, tracker, feature_reasons)
  | experiment_id :: rest, tracker, feature_reasons =>
    match config.get_experiment_from_id experiment_id with
    | none => try_experiments env config feature user_context fvm options rest
        tracker feature_reasons
    | some experiment =>
      let s := try_experiment_step env config feature user_context fvm options
        tracker feature_reasons experiment
      match s.1 with
      | some v =>
        (some (⟨some experiment, some v, DecisionSource.FEATURE_TEST⟩, s.2.2), s.2.1, s.2.2)
      | none => try_experiments env config feature user_context fvm options rest s.2.1 s.2.2

/-- The feature loop of get_variations_for_feature_list: per feature, the
experiment loop first, then the rollout resolver when no experiment decision
was found; exactly one (Decision, reasons) pair is recorded per feature, in
order.  none propagates a rollout loop that ran out of fuel. -/
def features_loop (env : Env) (config : ProjectConfig) (user_context : UserContext)
    (fvm : ForcedVariationMap) (options : List String) (fuel : Nat) :
    List FeatureFlag → Option UserProfileTracker → List String →
    Option (List (Decision × List String) × Option UserProfileTracker)
  | [], tracker, _ => some ([], tracker)
  | feature :: rest, tracker, decide_reasons =>
    let feature_reasons := decide_reasons
    let t := try_experiments env config feature user_context fvm options
      feature.experimentIds tracker feature_reasons
    match t.1 with
    | some pair =>
      match features_loop env config user_context fvm options fuel rest t.2.1
          decide_reasons with
      | none => none
      | some (ds, tr) => some (pair :: ds, tr)
    | none =>
      match get_variation_for_rollout env config feature user_context fuel with
      | none => none
      | some (rollout_decision, rollout_reasons) =>
        match features_loop env config user_context fvm options fuel rest t.2.1
            decide_reasons with
        | none => none
        | some (ds, tr) => some ((rollout_decision, t.2.2 ++ rollout_reasons) :: ds, tr)

/-- Embeds DecisionService.get_variations_for_feature_list: unless the
profile service is absent or ignored, one profile load before the feature
loop and at most one save after it; returns the ordered decision list and the
observable profile-service events. -/
def get_variations_for_feature_list (env : Env) (config : ProjectConfig)
    (features : List FeatureFlag) (user_context : UserContext)
    (fvm : ForcedVariationMap) (options : List String)
    (ups : Option UserProfileService) (fuel : Nat) :
    Option (List (Decision × List String) × List ProfileEvent) :=
  let ignore_ups := ignore_user_profile_service ∈ options
  let loaded : Option UserProfileTracker × List ProfileEvent :=
    match ups with
    | some s =>
      if ignore_ups then (none, [])
      else
        let l := load_user_profile s user_context.user_id
        (some l.1, l.2)
    | none => (none, [])
  let decide_reasons : List String := []
  match features_loop env config user_context fvm options fuel features loaded.1
      decide_reasons with
  | none => none
  | some (decisions, tracker2) =>
    let save_events : List ProfileEvent :=
      match ups, tracker2 with
      | some _, some t => if ignore_ups then [] else save_user_profile t
      | _, _ => []
    some (decisions, loaded.2 ++ save_events)

/-- Embeds DecisionService.get_variation_for_feature, which is the first
element of get_variations_for_feature_list applied to the singleton feature
list. -/
def get_variation_for_feature (env : Env) (config : ProjectConfig)
    (feature : FeatureFlag) (user_context : UserContext) (fvm : ForcedVariationMap)
    (options : List String) (ups : Option UserProfileService) (fuel : Nat) :
    Option (Decision × List String) :=
  match get_variations_for_feature_list env config [feature] user_context fvm options
      ups fuel with
  | none => none
  | some (decisions, _) => decisions.head?

/-- HTTP verbs of dispatchable events (enums.HTTPVerbs). -/
inductive HTTPVerb
  | GET
  | POST
deriving DecidableEq, Repr

/-- Event to dispatch: verb, url, params and headers
(event_builder.Event as consumed by event_dispatcher.py). -/
structure Event where
  http_verb : HTTPVerb
  url : String
  params : List (String × String)
  headers : List (String × String)
deriving DecidableEq, Repr

/-- Quoted JSON string (the serialization detail of json.dumps is a black
box; only the shape of the body matters to the embedding). -/
def jsonString (s : String) : String := "\"" ++ s ++ "\""

/-- JSON object serialization of the event params, the body json.dumps
produces for a POST. -/
def jsonEncode (params : List (String × String)) : String :=
  "\x7b" ++
    String.intercalate ", " (params.map (fun p => jsonString p.1 ++ ": " ++ jsonString p.2))
    ++ "\x7d"

/-- Outgoing request as handed to the transport: a GET carries the params as
a query string, a POST carries the serialized JSON body and the headers. -/
inductive Request
  | get (url : String) (query : List (String × String))
  | post (url : String) (body : String) (headers : List (String × String))
deriving DecidableEq, Repr

/-- Embeds the verb dispatch of EventDispatcher.dispatch_event: GET sends
event.params as the query string, POST sends json.dumps(event.params) as the
body together with event.headers. -/
def buildRequest (ev : Event) : Request :=
  match ev.http_verb with
  | HTTPVerb.GET => Request.get ev.url ev.params
  | HTTPVerb.POST => Request.post ev.url (jsonEncode ev.params) ev.headers

/-- Outcome of one transport attempt: an HTTP response with a status code, or
a connection-level failure. -/
inductive Outcome
  | response (status : Nat)
  | connFail
deriving DecidableEq, Repr

/-- Request-level errors, each a requests.RequestException subclass:
connectionError for connection failures, retryError for retries exhausted on
a forcelisted status, httpError for raise_for_status on an error status. -/
inductive ReqError
  | connectionError
  | retryError (status : Nat)
  | httpError (status : Nat)
deriving DecidableEq, Repr

/-- Statuses the source's Retry configuration retries on
(status_forcelist=[500, 502, 503, 504] in dispatch_event). -/
def status_forcelist : List Nat := [500, 502, 503, 504]

/-- Modelled from the spec: EventDispatchConfig.RETRIES is not under src; the
spec only requires a bounded retry count. -/
def RETRIES : Nat := 3

/-- Modelled from the spec: the urllib3 Retry adapter the source installs is
an external collaborator; per the spec it retries only on a forcelisted
status (500, 502, 503, 504) or a connection-level failure, up to the given
retry budget, and any other status is returned to the caller at once.  The
oracle gives the outcome of each attempt. -/
def retryLoop (oracle : Nat → Outcome) : Nat → Nat → Except ReqError Nat
  | 0, attempt =>
    match oracle attempt with
    | Outcome.connFail => Except.error ReqError.connectionError
    | Outcome.response s =>
      if s ∈ status_forcelist then Except.error (ReqError.retryError s) else Except.ok s
  | remaining + 1, attempt =>
    match oracle attempt with
    | Outcome.connFail => retryLoop oracle remaining (attempt + 1)
    | Outcome.response s =>
      if s ∈ status_forcelist then retryLoop oracle remaining (attempt + 1)
      else Except.ok s

/-- Embeds requests.Response.raise_for_status: raises an HTTPError for a 4xx
or 5xx status, otherwise returns. -/
def raise_for_status (status : Nat) : Except ReqError Unit :=
  if 400 ≤ status ∧ status < 600 then Except.error (ReqError.httpError status)
  else Except.ok ()

/-- One session.get or session.post call through the retrying adapter
followed by raise_for_status, as in the body of dispatch_event. -/
def sessionSend (req : Request) (oracle : Nat → Outcome) : Except ReqError Unit :=
  match req, retryLoop oracle RETRIES 0 with
  | _, Except.error e => Except.error e
  | _, Except.ok s => raise_for_status s

/-- Whether an error is a requests.RequestException (all modelled
request-level errors are). -/
def is_request_exception (e : ReqError) : Bool :=
  match e with
  | ReqError.connectionError => true
  | ReqError.retryError _ => true
  | ReqError.httpError _ => true

/-- Result of dispatch_event: completed (with the log lines written), or an
exception propagated to the caller. -/
inductive DispatchResult
  | completed (log : List String)
  | raised (e : ReqError)
deriving DecidableEq, Repr

/-- Log line written when a request fails. -/
def dispatch_failed_log : String := "Dispatch event failed."

/-- Embeds EventDispatcher.dispatch_event: builds and sends the request; a
RequestException is caught and logged, anything else would propagate. -/
def dispatch_event (ev : Event) (oracle : Nat → Outcome) : DispatchResult :=
  match sessionSend (buildRequest ev) oracle with
  | Except.ok _ => DispatchResult.completed []
  | Except.error e =>
    if is_request_exception e then DispatchResult.completed [dispatch_failed_log]
    else DispatchResult.raised e

theorem alookup_replaceEntry_other {α : Type} (l : List (String × α)) (k k' : String)
    (v : α) (h : k' ≠ k) : alookup (replaceEntry l k v) k' = alookup l k' := by
  induction l with
  | nil => rfl
  | cons p rest ih =>
    by_cases hp : p.1 = k
    · have hk' : ¬ (k = k') := fun e => h e.symm
      simpa [replaceEntry, alookup, hp, hk'] using ih
    · by_cases hp' : p.1 = k'
      · simp [replaceEntry, alookup, hp, hp', h]
      · simpa [replaceEntry, alookup, hp, hp'] using ih

theorem alookup_replaceEntry_self {α : Type} (l : List (String × α)) (k : String)
    (v v' : α) (h : alookup l k = some v) :
    alookup (replaceEntry l k v') k = some v' := by
  induction l with
  | nil => simp [alookup] at h
  | cons p rest ih =>
    by_cases hp : p.1 = k
    · simp [replaceEntry, alookup, hp]
    · simp only [alookup, if_neg hp] at h
      simpa [replaceEntry, alookup, hp] using ih h

theorem alookup_filter_self {α : Type} (l : List (String × α)) (k : String) :
    alookup (l.filter (fun p => p.1 ≠ k)) k = none := by
  induction l with
  | nil => rfl
  | cons p rest ih =>
    by_cases hp : p.1 = k
    · simpa [List.filter_cons, hp] using ih
    · simpa [List.filter_cons, alookup, hp] using ih

theorem alookup_filter_other {α : Type} (l : List (String × α)) (k k' : String)
    (h : k' ≠ k) : alookup (l.filter (fun p => p.1 ≠ k)) k' = alookup l k' := by
  induction l with
  | nil => rfl
  | cons p rest ih =>
    by_cases hp : p.1 = k
    · have hk' : ¬ (k = k') := fun e => h e.symm
      have hp' : ¬ (p.1 = k') := by rw [hp]; exact hk'
      simpa [List.filter_cons, alookup, hp, hp', hk'] using ih
    · by_cases hp' : p.1 = k'
      · simp [List.filter_cons, alookup, hp, hp', h]
      · simpa [List.filter_cons, alookup, hp, hp'] using ih

theorem lookupMapping_eraseMapping_self (fvm : ForcedVariationMap)
    (user_id experiment_id : String) :
    lookupMapping (eraseMapping fvm user_id experiment_id) user_id experiment_id = none := by
  cases houter : alookup fvm user_id with
  | none => simp [eraseMapping, lookupMapping, houter]
  | some inner =>
    cases hinner : alookup inner experiment_id with
    | none => simp [eraseMapping, lookupMapping, houter, hinner]
    | some v =>
      have hrep := alookup_replaceEntry_self fvm user_id inner
        (inner.filter (fun p => p.1 ≠ experiment_id)) houter
      simp only [ne_eq, decide_not] at hrep
      have hfs := alookup_filter_self inner experiment_id
      simp only [ne_eq, decide_not] at hfs
      simp [eraseMapping, lookupMapping, houter, hinner, hrep, hfs]

theorem eraseMapping_absent (fvm : ForcedVariationMap) (user_id experiment_id : String)
    (h : lookupMapping fvm user_id experiment_id = none) :
    eraseMapping fvm user_id experiment_id = fvm := by
  cases houter : alookup fvm user_id with
  | none => simp [eraseMapping, houter]
  | some inner =>
    simp only [lookupMapping, houter] at h
    simp only [Option.some_bind] at h
    simp [eraseMapping, houter, h]

theorem lookupMapping_eraseMapping_other (fvm : ForcedVariationMap)
    (user_id experiment_id uid eid : String) (h : uid ≠ user_id ∨ eid ≠ experiment_id) :
    lookupMapping (eraseMapping fvm user_id experiment_id) uid eid =
      lookupMapping fvm uid eid := by
  cases houter : alookup fvm user_id with
  | none => simp [eraseMapping, houter]
  | some inner =>
    cases hinner : alookup inner experiment_id with
    | none => simp [eraseMapping, houter, hinner]
    | some v =>
      by_cases hu : uid = user_id
      · subst hu
        rcases h with h | h
        · exact absurd rfl h
        · have hrep := alookup_replaceEntry_self fvm uid inner
            (inner.filter (fun p => p.1 ≠ experiment_id)) houter
          simp only [ne_eq, decide_not] at hrep
          have hfo := alookup_filter_other inner experiment_id eid h
          simp only [ne_eq, decide_not] at hfo
          simp [eraseMapping, lookupMapping, houter, hinner, hrep, hfo]
      · have hrep := alookup_replaceEntry_other fvm user_id uid
          (inner.filter (fun p => p.1 ≠ experiment_id)) hu
        simp only [ne_eq, decide_not] at hrep
        simp [eraseMapping, lookupMapping, houter, hinner, hrep]

/-- Claim C8: for every user id and attribute map, the bucketing id equals the value
of the reserved bucketing-id attribute when that attribute is present and is a
string; otherwise it equals the user id, and when the attribute is present but
not a string the warning reason is appended. -/
theorem bucketing_id_spec (user_id : String)
    (attributes : Option (List (String × AttrValue))) :
    (∀ s, alookup (attributes.getD []) bucketing_id_attribute = some (AttrValue.str s) →
      get_bucketing_id user_id attributes = (s, [])) ∧
    (alookup (attributes.getD []) bucketing_id_attribute = none →
      get_bucketing_id user_id attributes = (user_id, [])) ∧
    (∀ v, alookup (attributes.getD []) bucketing_id_attribute = some v →
      (∀ s, v ≠ AttrValue.str s) →
      get_bucketing_id user_id attributes = (user_id, [bucketing_id_warning])) := by
  refine ⟨?_, ?_, ?_⟩
  · intro s h
    simp [get_bucketing_id, h]
  · intro h
    simp [get_bucketing_id, h]
  · intro v h hv
    cases v with
    | str s => exact absurd rfl (hv s)
    | num n => simp [get_bucketing_id, h]
    | boolean b => simp [get_bucketing_id, h]

/-- Witness for C8 at a concrete non-string bucketing-id attribute. -/
theorem bucketing_id_spec_witness :
    get_bucketing_id "user_1" (some [(bucketing_id_attribute, AttrValue.num 3)]) =
      ("user_1", [bucketing_id_warning]) :=
  (bucketing_id_spec "user_1" (some [(bucketing_id_attribute, AttrValue.num 3)])).2.2
    (AttrValue.num 3) rfl (fun s h => by cases h)

/-- Claim C4: set_forced_variation with an unknown experiment key, or with a
non-null variation key that is empty or unknown for that experiment, returns
false and leaves the forced-variation map unchanged; with a null variation
key and a known experiment key it returns true, deleting the
(user, experiment) mapping (and only it) when present and leaving the map
unchanged when not. -/
theorem set_forced_variation_spec (config : ProjectConfig) (fvm : ForcedVariationMap)
    (experiment_key user_id : String) (variation_key : Option String) :
    (config.get_experiment_from_key experiment_key = none →
      set_forced_variation config fvm experiment_key user_id variation_key = (false, fvm)) ∧
    (∀ e s, config.get_experiment_from_key experiment_key = some e →
      variation_key = some s →
      (is_non_empty_string s = false ∨
        config.get_variation_from_key experiment_key s = none) →
      set_forced_variation config fvm experiment_key user_id variation_key = (false, fvm)) ∧
    (∀ e, config.get_experiment_from_key experiment_key = some e →
      variation_key = none →
      (set_forced_variation config fvm experiment_key user_id variation_key).1 = true ∧
      lookupMapping
        (set_forced_variation config fvm experiment_key user_id variation_key).2
        user_id e.id = none ∧
      (∀ uid eid, uid ≠ user_id ∨ eid ≠ e.id →
        lookupMapping
          (set_forced_variation config fvm experiment_key user_id variation_key).2
          uid eid = lookupMapping fvm uid eid) ∧
      (lookupMapping fvm user_id e.id = none →
        (set_forced_variation config fvm experiment_key user_id variation_key).2 = fvm)) := by
  refine ⟨?_, ?_, ?_⟩
  · intro h
    simp [set_forced_variation, h]
  · intro e s he hs hbad
    subst hs
    rcases hbad with hbad | hbad
    · simp [set_forced_variation, he, hbad]
    · by_cases hne : is_non_empty_string s
      · simp [set_forced_variation, he, hne, hbad]
      · simp [set_forced_variation, he, hne]
  · intro e he hk
    subst hk
    refine ⟨?_, ?_, ?_, ?_⟩
    · simp [set_forced_variation, he]
    · simp only [set_forced_variation, he]
      exact lookupMapping_eraseMapping_self fvm user_id e.id
    · intro uid eid hne
      simp only [set_forced_variation, he]
      exact lookupMapping_eraseMapping_other fvm user_id e.id uid eid hne
    · intro habs
      simp only [set_forced_variation, he]
      exact eraseMapping_absent fvm user_id e.id habs

/-- Concrete experiment used by witnesses. -/
def expA : Experiment :=
  { id := "exp_a_id", key := "exp_a", status := "Running", audienceIds := [],
    audienceConditions := none, forcedVariations := [] }

/-- Concrete variation used by witnesses. -/
def varA : Variation := { id := "var_a_id", key := "var_a" }

/-- Concrete second variation used by witnesses. -/
def varB : Variation := { id := "var_b_id", key := "var_b" }

/-- Concrete project configuration used by witnesses: one experiment with one
variation, no rollouts, no flag variations. -/
def cfg1 : ProjectConfig :=
  { get_experiment_from_key := fun k => if k = "exp_a" then some expA else none,
    get_experiment_from_id := fun i => if i = "exp_a_id" then some expA else none,
    get_variation_from_key := fun ek vk =>
      if ek = "exp_a" ∧ vk = "var_a" then some varA else none,
    get_variation_from_id := fun ek vi =>
      if ek = "exp_a" ∧ vi = "var_a_id" then some varA else none,
    get_rollout_from_id := fun _ => none,
    get_rollout_experiments := fun _ => [],
    get_flag_variation := fun _ _ => none }

/-- Witness for C4: a concrete unknown experiment key fails with no mutation,
and a concrete null-variation-key call on a known experiment returns true and
is a no-op on the empty map. -/
theorem set_forced_variation_spec_witness :
    set_forced_variation cfg1 [] "unknown" "user_1" (some "var_a") = (false, []) ∧
    (set_forced_variation cfg1 [] "exp_a" "user_1" none).1 = true ∧
    (set_forced_variation cfg1 [] "exp_a" "user_1" none).2 = [] :=
  ⟨(set_forced_variation_spec cfg1 [] "unknown" "user_1" (some "var_a")).1 rfl,
    ((set_forced_variation_spec cfg1 [] "exp_a" "user_1" none).2.2 expA rfl rfl).1,
    ((set_forced_variation_spec cfg1 [] "exp_a" "user_1" none).2.2 expA rfl rfl).2.2.2 rfl⟩

/-- Claim C7: dispatch_event never propagates a request-level failure (connection
errors and error statuses are caught and logged); a GET sends the params as a
query string while a POST sends them as a JSON body; and the transport retries
only on a 500, 502, 503 or 504 status or a connection-level failure — any
other status, in particular any 4xx, is returned at once with no retry. -/
theorem dispatch_event_spec :
    (∀ ev oracle, ∃ log, dispatch_event ev oracle = DispatchResult.completed log) ∧
    (∀ ev oracle e, sessionSend (buildRequest ev) oracle = Except.error e →
      dispatch_event ev oracle = DispatchResult.completed [dispatch_failed_log]) ∧
    (∀ ev, ev.http_verb = HTTPVerb.GET → buildRequest ev = Request.get ev.url ev.params) ∧
    (∀ ev, ev.http_verb = HTTPVerb.POST →
      buildRequest ev = Request.post ev.url (jsonEncode ev.params) ev.headers) ∧
    (∀ oracle r attempt s, oracle attempt = Outcome.response s → s ∉ status_forcelist →
      retryLoop oracle r attempt = Except.ok s) ∧
    (∀ s, 400 ≤ s → s < 500 → s ∉ status_forcelist) ∧
    (∀ oracle r attempt s, oracle attempt = Outcome.response s → s ∈ status_forcelist →
      retryLoop oracle (r + 1) attempt = retryLoop oracle r (attempt + 1)) ∧
    (∀ oracle r attempt, oracle attempt = Outcome.connFail →
      retryLoop oracle (r + 1) attempt = retryLoop oracle r (attempt + 1)) := by
  refine ⟨?_, ?_, ?_, ?_, ?_, ?_, ?_, ?_⟩
  · intro ev oracle
    cases h : sessionSend (buildRequest ev) oracle with
    | ok u => exact ⟨[], by simp [dispatch_event, h]⟩
    | error e =>
      exact ⟨[dispatch_failed_log],
        by cases e <;> simp [dispatch_event, h, is_request_exception]⟩
  · intro ev oracle e h
    cases e <;> simp [dispatch_event, h, is_request_exception]
  · intro ev h
    simp [buildRequest, h]
  · intro ev h
    simp [buildRequest, h]
  · intro oracle r attempt s h hs
    cases r with
    | zero => simp [retryLoop, h, hs]
    | succ r => simp [retryLoop, h, hs]
  · intro s h4 h5 hmem
    simp [status_forcelist] at hmem
    rcases hmem with h | h | h | h <;> omega
  · intro oracle r attempt s h hs
    simp [retryLoop, h, hs]
  · intro oracle r attempt h
    simp [retryLoop, h]

/-- Transport oracle answering every attempt with a 404 response. -/
def oracle404 : Nat → Outcome := fun _ => Outcome.response 404

/-- Concrete GET event used by the C7 witness. -/
def evGet : Event :=
  { http_verb := HTTPVerb.GET, url := "http://log.example", params := [("k", "v")],
    headers := [] }

/-- Witness for C7: at a concrete event and a transport answering 404, the
dispatch completes without raising, the 404 is not retried, and the GET
carries the params as the query. -/
theorem dispatch_event_spec_witness :
    (∃ log, dispatch_event evGet oracle404 = DispatchResult.completed log) ∧
    retryLoop oracle404 RETRIES 0 = Except.ok 404 ∧
    buildRequest evGet = Request.get evGet.url evGet.params :=
  ⟨dispatch_event_spec.1 evGet oracle404,
    dispatch_event_spec.2.2.2.2.1 oracle404 RETRIES 0 404 rfl (by decide),
    dispatch_event_spec.2.2.1 evGet rfl⟩

theorem rolloutStep_inl_shape (env : Env) (config : ProjectConfig)
    (feature : FeatureFlag) (user : UserContext) (rules : List Experiment)
    (index : Nat) (acc : List String) (d : Decision) (rs : List String)
    (h : rolloutStep env config feature user rules index acc = Sum.inl (d, rs)) :
    d.source = DecisionSource.ROLLOUT ∧
    ((∃ e v, d.experiment = some e ∧ d.variation = some v) ∨
      (d.experiment = none ∧ d.variation = none)) := by
  simp only [rolloutStep] at h
  repeat' split at h
  all_goals
    first
    | (simp only [Sum.inl.injEq, Prod.mk.injEq] at h
       obtain ⟨hd, -⟩ := h
       subst hd
       first
       | exact ⟨rfl, Or.inl ⟨_, _, rfl, rfl⟩⟩
       | exact ⟨rfl, Or.inr ⟨rfl, rfl⟩⟩)
    | simp at h

theorem rolloutLoop_shape (env : Env) (config : ProjectConfig) (feature : FeatureFlag)
    (user : UserContext) (rules : List Experiment) :
    ∀ fuel index acc d rs,
      rolloutLoop env config feature user rules fuel index acc = some (d, rs) →
      d.source = DecisionSource.ROLLOUT ∧
      ((∃ e v, d.experiment = some e ∧ d.variation = some v) ∨
        (d.experiment = none ∧ d.variation = none)) := by
  intro fuel
  induction fuel with
  | zero =>
    intro index acc d rs h
    simp [rolloutLoop] at h
  | succ n ih =>
    intro index acc d rs h
    simp only [rolloutLoop] at h
    cases hstep : rolloutStep env config feature user rules index acc with
    | inl result =>
      obtain ⟨rd, rrs⟩ := result
      rw [hstep] at h
      simp only [Option.some.injEq, Prod.mk.injEq] at h
      obtain ⟨hd, -⟩ := h
      subst hd
      exact rolloutStep_inl_shape env config feature user rules index acc rd rrs hstep
    | inr next =>
      obtain ⟨i2, acc2⟩ := next
      rw [hstep] at h
      exact ih i2 acc2 d rs h

/-- Claim C9: every Decision returned by get_variation_for_rollout has source
ROLLOUT, and its experiment and variation are either both non-null or both
null; a non-null variation with a null experiment is never produced. -/
theorem rollout_decision_shape (env : Env) (config : ProjectConfig)
    (feature : FeatureFlag) (user : UserContext) (fuel : Nat) (d : Decision)
    (rs : List String)
    (h : get_variation_for_rollout env config feature user fuel = some (d, rs)) :
    d.source = DecisionSource.ROLLOUT ∧
    ((∃ e v, d.experiment = some e ∧ d.variation = some v) ∨
      (d.experiment = none ∧ d.variation = none)) := by
  simp only [get_variation_for_rollout] at h
  split at h
  · simp only [Option.some.injEq, Prod.mk.injEq] at h
    obtain ⟨hd, -⟩ := h
    subst hd
    exact ⟨rfl, Or.inr ⟨rfl, rfl⟩⟩
  · split at h
    · simp only [Option.some.injEq, Prod.mk.injEq] at h
      obtain ⟨hd, -⟩ := h
      subst hd
      exact ⟨rfl, Or.inr ⟨rfl, rfl⟩⟩
    · split at h
      · simp only [Option.some.injEq, Prod.mk.injEq] at h
        obtain ⟨hd, -⟩ := h
        subst hd
        exact ⟨rfl, Or.inr ⟨rfl, rfl⟩⟩
      · exact rolloutLoop_shape env config feature user _ fuel 0 [] d rs h

/-- User context with no attributes and no forced decisions, used by
witnesses. -/
def user1 : UserContext := { user_id := "user_1", attributes := [], forced_decisions := [] }

/-- Environment whose audience evaluator always says no and whose bucketer
never buckets, used by witnesses. -/
def envFalse : Env :=
  { audience_eval := fun _ _ _ _ _ => (false, []),
    bucket := fun _ _ _ _ => (none, []) }

/-- Feature with no rollout id and no experiments, used by witnesses. -/
def featZ : FeatureFlag :=
  { id := "feat_z_id", key := "feat_z", rolloutId := "", experimentIds := [] }

/-- Witness for C9 at a concrete feature with no rollout id: the returned
terminal decision is null-null-ROLLOUT. -/
theorem rollout_decision_shape_witness :
    (Decision.mk none none DecisionSource.ROLLOUT).source = DecisionSource.ROLLOUT ∧
    ((∃ e v, (Decision.mk none none DecisionSource.ROLLOUT).experiment = some e ∧
        (Decision.mk none none DecisionSource.ROLLOUT).variation = some v) ∨
      ((Decision.mk none none DecisionSource.ROLLOUT).experiment = none ∧
        (Decision.mk none none DecisionSource.ROLLOUT).variation = none)) :=
  rollout_decision_shape envFalse cfg1 featZ user1 1
    (Decision.mk none none DecisionSource.ROLLOUT) [] (by decide)

/-- Rollout rule whose id resolves to nothing in cfgBad. -/
def ruleBad : Experiment :=
  { id := "missing_id", key := "rule_bad", status := "Running", audienceIds := [],
    audienceConditions := none, forcedVariations := [] }

/-- Rollout holding the unresolvable rule. -/
def rolloutR : Rollout := { id := "rollout_r" }

/-- Configuration whose rollout has one rule experiment whose id does not
resolve through get_experiment_from_id. -/
def cfgBad : ProjectConfig :=
  { get_experiment_from_key := fun _ => none,
    get_experiment_from_id := fun _ => none,
    get_variation_from_key := fun _ _ => none,
    get_variation_from_id := fun _ _ => none,
    get_rollout_from_id := fun i => if i = "rollout_r" then some rolloutR else none,
    get_rollout_experiments := fun _ => [ruleBad],
    get_flag_variation := fun _ _ => none }

/-- Feature attached to the rollout with the unresolvable rule. -/
def featBad : FeatureFlag :=
  { id := "feat_bad_id", key := "feat_bad", rolloutId := "rollout_r", experimentIds := [] }

theorem rolloutStep_bad (acc : List String) :
    rolloutStep envFalse cfgBad featBad user1 [ruleBad] 0 acc = Sum.inr (0, acc) := by
  simp [rolloutStep, validated_forced_decision, UserContext.get_forced_decision,
    get_bucketing_id, cfgBad, featBad, user1, ruleBad, envFalse, alookup]

theorem rollout_bad_rule_loop_none :
    ∀ fuel acc, rolloutLoop envFalse cfgBad featBad user1 [ruleBad] fuel 0 acc = none := by
  intro fuel
  induction fuel with
  | zero => intro acc; rfl
  | succ n ih =>
    intro acc
    simp only [rolloutLoop, rolloutStep_bad acc]
    exact ih acc

/-- Claim C3 (refuted, code bug): at a rollout whose single rule id fails to resolve
in config and a user with no forced decision, the source's continue branch
re-enters the while loop without advancing the index, so the rule-walking loop
never returns: for every fuel bound the loop is still running.  The claim
(and the spec) say the rule is skipped, the next index is evaluated and the
loop terminates. -/
theorem rollout_unresolved_rule_never_returns :
    ∀ fuel, get_variation_for_rollout envFalse cfgBad featBad user1 fuel = none := by
  intro fuel
  have hred : get_variation_for_rollout envFalse cfgBad featBad user1 fuel =
      rolloutLoop envFalse cfgBad featBad user1 [ruleBad] fuel 0 [] := rfl
  rw [hred]
  exact rollout_bad_rule_loop_none fuel []

/-- Claim C2: in the rule-walking loop, at a rule that is not the last one, when no
forced decision applies, the rule resolves, the audience matches and bucketing
returns none, the loop re-enters directly at the last (everyone-else) index
rather than at index + 1, bypassing all intermediate rules. -/
theorem rollout_skip_to_everyone_else (env : Env) (config : ProjectConfig)
    (feature : FeatureFlag) (user : UserContext) (rules : List Experiment)
    (index : Nat) (acc : List String) (rule rollout_rule : Experiment)
    (hidx : index + 1 < rules.length)
    (hrule : rules[index]? = some rule)
    (hforced : (validated_forced_decision config feature.key rule.key user).1 = none)
    (hresolve : config.get_experiment_from_id rule.id = some rollout_rule)
    (haud : (env.audience_eval config rollout_rule.get_audience_conditions_or_ids
      LogTemplateSet.rolloutLogs (toString (index + 1)) user).1 = true)
    (hbucket : (env.bucket config rollout_rule user.user_id
      (get_bucketing_id user.user_id (some user.attributes)).1).1 = none) :
    ∀ fuel, ∃ acc2,
      rolloutLoop env config feature user rules (fuel + 1) index acc =
        rolloutLoop env config feature user rules fuel (rules.length - 1) acc2 := by
  have hlt : index < rules.length := Nat.lt_of_succ_lt hidx
  have hne : ¬ (index = rules.length - 1) := by omega
  have hget : rules[index] = rule := by
    have h2 := List.getElem?_eq_getElem hlt
    rw [hrule] at h2
    exact (Option.some.injEq _ _).mp h2.symm
  have hstep : ∃ acc2, rolloutStep env config feature user rules index acc =
      Sum.inr (rules.length - 1, acc2) := by
    simp [rolloutStep, dif_pos hlt, hget, hforced, hresolve, haud, hbucket, hne]
  obtain ⟨acc2, hstep⟩ := hstep
  intro fuel
  refine ⟨acc2, ?_⟩
  simp only [rolloutLoop, hstep]

/-- First rollout rule for the C2 witness: matches audience, never buckets. -/
def r1 : Experiment :=
  { id := "r1_id", key := "r1", status := "Running", audienceIds := [],
    audienceConditions := none, forcedVariations := [] }

/-- Intermediate rollout rule for the C2 witness: would bucket to varA if the
loop advanced sequentially. -/
def r2 : Experiment :=
  { id := "r2_id", key := "r2", status := "Running", audienceIds := [],
    audienceConditions := none, forcedVariations := [] }

/-- Last (everyone-else) rollout rule for the C2 witness: buckets to varB. -/
def r3 : Experiment :=
  { id := "r3_id", key := "r3", status := "Running", audienceIds := [],
    audienceConditions := none, forcedVariations := [] }

/-- Configuration resolving the three rollout rules by id. -/
def cfgRoll : ProjectConfig :=
  { get_experiment_from_key := fun _ => none,
    get_experiment_from_id := fun i =>
      if i = "r1_id" then some r1
      else if i = "r2_id" then some r2
      else if i = "r3_id" then some r3
      else none,
    get_variation_from_key := fun _ _ => none,
    get_variation_from_id := fun _ _ => none,
    get_rollout_from_id := fun _ => none,
    get_rollout_experiments := fun _ => [],
    get_flag_variation := fun _ _ => none }

/-- Environment for the C2 witness: every audience matches; rule 1 never
buckets, rule 2 buckets to varA, rule 3 buckets to varB. -/
def envSkip : Env :=
  { audience_eval := fun _ _ _ _ _ => (true, []),
    bucket := fun _ rule _ _ =>
      if rule.id = "r1_id" then (none, [])
      else if rule.id = "r2_id" then (some varA, [])
      else (some varB, []) }

/-- Feature whose key scopes the forced-decision lookups in the C2 witness. -/
def featR : FeatureFlag :=
  { id := "feat_r_id", key := "feat_r", rolloutId := "rollout_s", experimentIds := [] }

/-- Witness for C2: at rule 1 of three rules the user matches the audience but
fails bucketing, and the loop re-enters at the last index; run to completion
the loop lands on rule 3's variation, bypassing rule 2 (which would have
yielded varA under sequential advance). -/
theorem rollout_skip_to_everyone_else_witness :
    (∃ acc2, rolloutLoop envSkip cfgRoll featR user1 [r1, r2, r3] 6 0 [] =
      rolloutLoop envSkip cfgRoll featR user1 [r1, r2, r3] 5
        ([r1, r2, r3].length - 1) acc2) ∧
    (∃ rs, rolloutLoop envSkip cfgRoll featR user1 [r1, r2, r3] 6 0 [] =
      some (Decision.mk (some r3) (some varB) DecisionSource.ROLLOUT, rs)) :=
  ⟨rollout_skip_to_everyone_else envSkip cfgRoll featR user1 [r1, r2, r3] 0 [] r1 r1
      (by decide) rfl rfl rfl rfl rfl 5,
    ⟨[meets_audience_message "user_1" "1",
      checking_everyone_else_message "user_1" "1",
      meets_audience_message "user_1" "Everyone Else",
      bucketed_message "user_1" "Everyone Else"], by decide⟩⟩

/-- Claim C1: for a running experiment, get_variation resolves the layers in the
fixed order forced-variation store, whitelist, profile-stored decision,
audience evaluation plus bucketing, short-circuiting at the first hit: a
store entry that resolves is returned for EVERY environment (in particular
one whose audience evaluator answers false); the whitelist is used only when
the store yields none; the stored decision only when both yield none; and
with all three empty the result is none on audience failure and the
bucketer's answer on audience success. -/
theorem get_variation_precedence (env : Env) (config : ProjectConfig)
    (experiment : Experiment) (user : UserContext)
    (tracker : Option UserProfileTracker) (fvm : ForcedVariationMap)
    (reasons options : List String)
    (hrun : is_experiment_running experiment = true) :
    (∀ v, (get_forced_variation config fvm experiment.key user.user_id).1 = some v →
      (get_variation env config experiment user tracker fvm reasons options).1 = some v) ∧
    (∀ v, (get_forced_variation config fvm experiment.key user.user_id).1 = none →
      (get_whitelisted_variation config experiment user.user_id).1 = some v →
      (get_variation env config experiment user tracker fvm reasons options).1 = some v) ∧
    (∀ t v, (get_forced_variation config fvm experiment.key user.user_id).1 = none →
      (get_whitelisted_variation config experiment user.user_id).1 = none →
      tracker = some t →
      ignore_user_profile_service ∉ options →
      get_stored_variation config experiment t.user_profile = some v →
      (get_variation env config experiment user tracker fvm reasons options).1 = some v) ∧
    ((get_forced_variation config fvm experiment.key user.user_id).1 = none →
      (get_whitelisted_variation config experiment user.user_id).1 = none →
      (∀ t, tracker = some t → ignore_user_profile_service ∈ options ∨
        get_stored_variation config experiment t.user_profile = none) →
      (env.audience_eval config experiment.get_audience_conditions_or_ids
        LogTemplateSet.experimentLogs experiment.key user).1 = false →
      (get_variation env config experiment user tracker fvm reasons options).1 = none) ∧
    ((get_forced_variation config fvm experiment.key user.user_id).1 = none →
      (get_whitelisted_variation config experiment user.user_id).1 = none →
      (∀ t, tracker = some t → ignore_user_profile_service ∈ options ∨
        get_stored_variation config experiment t.user_profile = none) →
      (env.audience_eval config experiment.get_audience_conditions_or_ids
        LogTemplateSet.experimentLogs experiment.key user).1 = true →
      (get_variation env config experiment user tracker fvm reasons options).1 =
        (env.bucket config experiment user.user_id
          (get_bucketing_id user.user_id (some user.attributes)).1).1) := by
  refine ⟨?_, ?_, ?_, ?_, ?_⟩
  · intro v hf
    simp [get_variation, hrun, hf]
  · intro v hf hw
    simp [get_variation, hrun, hf, hw]
  · intro t v hf hw htr hopt hst
    subst htr
    simp [get_variation, hrun, hf, hw, hopt, hst]
  · intro hf hw htr haud
    cases tracker with
    | none =>
      simp [get_variation, hrun, hf, hw, haud]
    | some t =>
      rcases htr t rfl with hopt | hst
      · simp [get_variation, hrun, hf, hw, hopt, haud]
      · by_cases hopt : ignore_user_profile_service ∈ options
        · simp [get_variation, hrun, hf, hw, hopt, haud]
        · simp [get_variation, hrun, hf, hw, hopt, hst, haud]
  · intro hf hw htr haud
    cases tracker with
    | none =>
      cases hb : (env.bucket config experiment user.user_id
          (get_bucketing_id user.user_id (some user.attributes)).1).1 with
      | none => simp [get_variation, hrun, hf, hw, haud, hb]
      | some v => simp [get_variation, hrun, hf, hw, haud, hb]
    | some t =>
      rcases htr t rfl with hopt | hst
      · cases hb : (env.bucket config experiment user.user_id
            (get_bucketing_id user.user_id (some user.attributes)).1).1 with
        | none => simp [get_variation, hrun, hf, hw, hopt, haud, hb]
        | some v => simp [get_variation, hrun, hf, hw, hopt, haud, hb]
      · by_cases hopt : ignore_user_profile_service ∈ options
        · cases hb : (env.bucket config experiment user.user_id
              (get_bucketing_id user.user_id (some user.attributes)).1).1 with
          | none => simp [get_variation, hrun, hf, hw, hopt, haud, hb]
          | some v => simp [get_variation, hrun, hf, hw, hopt, haud, hb]
        · cases hb : (env.bucket config experiment user.user_id
              (get_bucketing_id user.user_id (some user.attributes)).1).1 with
          | none => simp [get_variation, hrun, hf, hw, hopt, hst, haud, hb]
          | some v => simp [get_variation, hrun, hf, hw, hopt, hst, haud, hb]

/-- Forced-variation map binding user_1 to varA in expA, for the C1 witness. -/
def fvm1 : ForcedVariationMap := [("user_1", [("exp_a_id", "var_a_id")])]

/-- Witness for C1: with the store mapping user_1 to varA and an environment
whose audience evaluator always answers false, get_variation still returns
varA. -/
theorem get_variation_precedence_witness :
    (get_variation envFalse cfg1 expA user1 none fvm1 [] []).1 = some varA :=
  (get_variation_precedence envFalse cfg1 expA user1 none fvm1 [] [] rfl).1 varA
    (by decide)

theorem features_loop_length (env : Env) (config : ProjectConfig) (user : UserContext)
    (fvm : ForcedVariationMap) (options : List String) (fuel : Nat) :
    ∀ features tracker rs ds tr,
      features_loop env config user fvm options fuel features tracker rs = some (ds, tr) →
      ds.length = features.length := by
  intro features
  induction features with
  | nil =>
    intro tracker rs ds tr h
    simp only [features_loop, Option.some.injEq, Prod.mk.injEq] at h
    obtain ⟨hds, -⟩ := h
    subst hds
    rfl
  | cons feature rest ih =>
    intro tracker rs ds tr h
    simp only [features_loop] at h
    cases htt : (try_experiments env config feature user fvm options
        feature.experimentIds tracker rs).1 with
    | some pair =>
      simp only [htt] at h
      cases hfl : features_loop env config user fvm options fuel rest
          (try_experiments env config feature user fvm options
            feature.experimentIds tracker rs).2.1 rs with
      | none =>
        simp only [hfl] at h
        exact Option.noConfusion h
      | some dst =>
        obtain ⟨ds2, tr2⟩ := dst
        simp only [hfl, Option.some.injEq, Prod.mk.injEq] at h
        obtain ⟨hds, -⟩ := h
        subst hds
        simp [ih _ _ _ _ hfl]
    | none =>
      simp only [htt] at h
      cases hro : get_variation_for_rollout env config feature user fuel with
      | none =>
        simp only [hro] at h
        exact Option.noConfusion h
      | some rres =>
        obtain ⟨rd, rrs⟩ := rres
        simp only [hro] at h
        cases hfl : features_loop env config user fvm options fuel rest
            (try_experiments env config feature user fvm options
              feature.experimentIds tracker rs).2.1 rs with
        | none =>
          simp only [hfl] at h
          exact Option.noConfusion h
        | some dst =>
          obtain ⟨ds2, tr2⟩ := dst
          simp only [hfl, Option.some.injEq, Prod.mk.injEq] at h
          obtain ⟨hds, -⟩ := h
          subst hds
          simp [ih _ _ _ _ hfl]

theorem gvffl_length (env : Env) (config : ProjectConfig) (user : UserContext)
    (fvm : ForcedVariationMap) (options : List String) (fuel : Nat) :
    ∀ features ups ds events,
      get_variations_for_feature_list env config features user fvm options ups fuel =
        some (ds, events) →
      ds.length = features.length := by
  intro features ups ds events h
  cases ups with
  | none =>
    simp only [get_variations_for_feature_list] at h
    cases hfl : features_loop env config user fvm options fuel features none [] with
    | none =>
      simp only [hfl] at h
      exact Option.noConfusion h
    | some dst =>
      obtain ⟨decisions, tracker2⟩ := dst
      simp only [hfl, Option.some.injEq, Prod.mk.injEq] at h
      obtain ⟨hds, -⟩ := h
      subst hds
      exact features_loop_length env config user fvm options fuel features none []
        decisions tracker2 hfl
  | some s =>
    by_cases hig : ignore_user_profile_service ∈ options
    · simp only [get_variations_for_feature_list, hig, if_true] at h
      cases hfl : features_loop env config user fvm options fuel features none [] with
      | none =>
        simp only [hfl] at h
        exact Option.noConfusion h
      | some dst =>
        obtain ⟨decisions, tracker2⟩ := dst
        simp only [hfl, Option.some.injEq, Prod.mk.injEq] at h
        obtain ⟨hds, -⟩ := h
        subst hds
        exact features_loop_length env config user fvm options fuel features none []
          decisions tracker2 hfl
    · simp only [get_variations_for_feature_list, hig, if_false, if_neg hig] at h
      cases hfl : features_loop env config user fvm options fuel features
          (some (load_user_profile s user.user_id).1) [] with
      | none =>
        simp only [hfl] at h
        exact Option.noConfusion h
      | some dst =>
        obtain ⟨decisions, tracker2⟩ := dst
        simp only [hfl, Option.some.injEq, Prod.mk.injEq] at h
        obtain ⟨hds, -⟩ := h
        subst hds
        exact features_loop_length env config user fvm options fuel features
          (some (load_user_profile s user.user_id).1) [] decisions tracker2 hfl

theorem try_experiments_first_match (env : Env) (config : ProjectConfig)
    (feature : FeatureFlag) (user : UserContext) (fvm : ForcedVariationMap)
    (options : List String) :
    ∀ ids1 eid ids2 tracker frs t1 r1 e v,
      try_experiments env config feature user fvm options ids1 tracker frs =
        (none, t1, r1) →
      config.get_experiment_from_id eid = some e →
      (try_experiment_step env config feature user fvm options t1 r1 e).1 = some v →
      try_experiments env config feature user fvm options (ids1 ++ eid :: ids2)
          tracker frs =
        (some (Decision.mk (some e) (some v) DecisionSource.FEATURE_TEST,
          (try_experiment_step env config feature user fvm options t1 r1 e).2.2),
         (try_experiment_step env config feature user fvm options t1 r1 e).2.1,
         (try_experiment_step env config feature user fvm options t1 r1 e).2.2) := by
  intro ids1
  induction ids1 with
  | nil =>
    intro eid ids2 tracker frs t1 r1 e v h he hv
    simp only [try_experiments, Prod.mk.injEq] at h
    obtain ⟨-, h2, h3⟩ := h
    subst h2
    subst h3
    simp only [List.nil_append, try_experiments, he, hv]
  | cons x rest ih =>
    intro eid ids2 tracker frs t1 r1 e v h he hv
    simp only [List.cons_append]
    cases hx : config.get_experiment_from_id x with
    | none =>
      simp only [try_experiments, hx] at h ⊢
      exact ih eid ids2 tracker frs t1 r1 e v h he hv
    | some ex =>
      cases hs : (try_experiment_step env config feature user fvm options
          tracker frs ex).1 with
      | some w =>
        simp only [try_experiments, hx, hs, Prod.mk.injEq] at h
        exact absurd h.1 (by simp)
      | none =>
        simp only [try_experiments, hx, hs] at h ⊢
        exact ih eid ids2 _ _ t1 r1 e v h he hv

theorem features_loop_rollout_fallback (env : Env) (config : ProjectConfig)
    (user : UserContext) (fvm : ForcedVariationMap) (options : List String)
    (fuel : Nat) :
    ∀ feature rest tracker rs rd rrs ds tr,
      (try_experiments env config feature user fvm options feature.experimentIds
        tracker rs).1 = none →
      get_variation_for_rollout env config feature user fuel = some (rd, rrs) →
      features_loop env config user fvm options fuel rest
        (try_experiments env config feature user fvm options feature.experimentIds
          tracker rs).2.1 rs = some (ds, tr) →
      features_loop env config user fvm options fuel (feature :: rest) tracker rs =
        some ((rd,
          (try_experiments env config feature user fvm options feature.experimentIds
            tracker rs).2.2 ++ rrs) :: ds, tr) := by
  intro feature rest tracker rs rd rrs ds tr h1 h2 h3
  simp only [features_loop, h1, h2, h3]

/-- Claim C5: get_variations_for_feature_list returns exactly one
(Decision, reasons) pair per input feature, in input order (part 1: the
output list is as long as the input list, the loop emitting one pair per
feature in order); within a feature the experiment ids are tried in order —
each id's step runs the forced-decision check before the full experiment
resolver — and the first experiment yielding a non-null variation produces a
Decision with source FEATURE_TEST and stops the search, the ids after it
never being consulted (part 2); when no experiment yields a variation the
rollout resolver's Decision is recorded for the feature instead, even when it
is the null-null-ROLLOUT terminal decision (part 3). -/
theorem get_variations_for_feature_list_spec (env : Env) (config : ProjectConfig)
    (user : UserContext) (fvm : ForcedVariationMap) (options : List String)
    (fuel : Nat) :
    (∀ features ups ds events,
      get_variations_for_feature_list env config features user fvm options ups fuel =
        some (ds, events) →
      ds.length = features.length) ∧
    (∀ feature ids1 eid ids2 tracker frs t1 r1 e v,
      try_experiments env config feature user fvm options ids1 tracker frs =
        (none, t1, r1) →
      config.get_experiment_from_id eid = some e →
      (try_experiment_step env config feature user fvm options t1 r1 e).1 = some v →
      try_experiments env config feature user fvm options (ids1 ++ eid :: ids2)
          tracker frs =
        (some (Decision.mk (some e) (some v) DecisionSource.FEATURE_TEST,
          (try_experiment_step env config feature user fvm options t1 r1 e).2.2),
         (try_experiment_step env config feature user fvm options t1 r1 e).2.1,
         (try_experiment_step env config feature user fvm options t1 r1 e).2.2)) ∧
    (∀ feature rest tracker rs rd rrs ds tr,
      (try_experiments env config feature user fvm options feature.experimentIds
        tracker rs).1 = none →
      get_variation_for_rollout env config feature user fuel = some (rd, rrs) →
      features_loop env config user fvm options fuel rest
        (try_experiments env config feature user fvm options feature.experimentIds
          tracker rs).2.1 rs = some (ds, tr) →
      features_loop env config user fvm options fuel (feature :: rest) tracker rs =
        some ((rd,
          (try_experiments env config feature user fvm options feature.experimentIds
            tracker rs).2.2 ++ rrs) :: ds, tr)) :=
  ⟨gvffl_length env config user fvm options fuel,
    fun feature => try_experiments_first_match env config feature user fvm options,
    features_loop_rollout_fallback env config user fvm options fuel⟩

/-- Feature with one (resolvable) experiment id followed by nothing, used by
the C5 witness. -/
def featE : FeatureFlag :=
  { id := "feat_e_id", key := "feat_e", rolloutId := "", experimentIds := ["exp_a_id"] }

/-- Environment whose audience evaluator always says yes and whose bucketer
always buckets to varA, used by the C5 witness. -/
def envTrue : Env :=
  { audience_eval := fun _ _ _ _ _ => (true, []),
    bucket := fun _ _ _ _ => (some varA, []) }

/-- Witness for C5 at concrete inputs: the singleton batch yields one pair;
the first resolvable experiment that yields varA stops the search before a
trailing unknown id; and a feature with no experiment decision records the
terminal rollout decision. -/
theorem get_variations_for_feature_list_spec_witness :
    ([(Decision.mk none none DecisionSource.ROLLOUT, ([] : List String))].length =
      [featZ].length) ∧
    (try_experiments envTrue cfg1 featE user1 [] []
        (([] : List String) ++ "exp_a_id" :: ["exp_missing"]) none [] =
      (some (Decision.mk (some expA) (some varA) DecisionSource.FEATURE_TEST,
        (try_experiment_step envTrue cfg1 featE user1 [] [] none [] expA).2.2),
       (try_experiment_step envTrue cfg1 featE user1 [] [] none [] expA).2.1,
       (try_experiment_step envTrue cfg1 featE user1 [] [] none [] expA).2.2)) ∧
    (features_loop envFalse cfg1 user1 [] [] 1 [featZ] none [] =
      some ([(Decision.mk none none DecisionSource.ROLLOUT,
        (try_experiments envFalse cfg1 featZ user1 [] [] featZ.experimentIds
          none []).2.2 ++ [])], none)) :=
  ⟨(get_variations_for_feature_list_spec envFalse cfg1 user1 [] [] 1).1 [featZ] none
      [(Decision.mk none none DecisionSource.ROLLOUT, [])] [] (by decide),
    (get_variations_for_feature_list_spec envTrue cfg1 user1 [] [] 1).2.1 featE []
      "exp_a_id" ["exp_missing"] none [] none [] expA varA rfl rfl (by decide),
    (get_variations_for_feature_list_spec envFalse cfg1 user1 [] [] 1).2.2 featZ []
      none [] (Decision.mk none none DecisionSource.ROLLOUT) [] [] none
      rfl (by decide) rfl⟩

/-- Claim C6: with a user-profile service configured and the ignore-profile option
not set, a batch decision loads the profile exactly once — the load event
opens the profile-service event trace, before any feature is processed — and
saves at most once, after all features: the trace is the single load followed
by nothing or by one save. -/
theorem profile_load_save_once (env : Env) (config : ProjectConfig)
    (features : List FeatureFlag) (user : UserContext) (fvm : ForcedVariationMap)
    (options : List String) (s : UserProfileService) (fuel : Nat)
    (ds : List (Decision × List String)) (events : List ProfileEvent)
    (hig : ignore_user_profile_service ∉ options)
    (h : get_variations_for_feature_list env config features user fvm options
      (some s) fuel = some (ds, events)) :
    ∃ rest, events = ProfileEvent.load user.user_id :: rest ∧
      (rest = [] ∨ ∃ p, rest = [ProfileEvent.save p]) := by
  simp only [get_variations_for_feature_list, if_neg hig] at h
  cases hfl : features_loop env config user fvm options fuel features
      (some (load_user_profile s user.user_id).1) [] with
  | none =>
    simp only [hfl] at h
    exact Option.noConfusion h
  | some dst =>
    obtain ⟨decisions, tracker2⟩ := dst
    simp only [hfl, Option.some.injEq, Prod.mk.injEq] at h
    obtain ⟨-, hev⟩ := h
    cases tracker2 with
    | none =>
      refine ⟨[], ?_, Or.inl rfl⟩
      rw [← hev]
      rfl
    | some t =>
      cases hpu : t.profile_updated with
      | true =>
        refine ⟨[ProfileEvent.save t.user_profile], ?_, Or.inr ⟨t.user_profile, rfl⟩⟩
        rw [← hev]
        simp [load_user_profile, save_user_profile, hpu]
      | false =>
        refine ⟨[], ?_, Or.inl rfl⟩
        rw [← hev]
        simp [load_user_profile, save_user_profile, hpu]

/-- Profile service that has no stored profile for anyone, used by the C6
witness. -/
def ups1 : UserProfileService := { lookup := fun _ => none }

/-- Witness for C6: a concrete empty batch with the service configured
observes exactly the single load event. -/
theorem profile_load_save_once_witness :
    ∃ rest, [ProfileEvent.load "user_1"] = ProfileEvent.load user1.user_id :: rest ∧
      (rest = [] ∨ ∃ p, rest = [ProfileEvent.save p]) :=
  profile_load_save_once envFalse cfg1 [] user1 [] [] ups1 1 []
    [ProfileEvent.load "user_1"] (by decide) (by decide)

/-- Claim C10: get_variation_for_feature returns exactly the first element of
get_variations_for_feature_list applied to the singleton list containing the
feature: that call returns exactly one pair, and get_variation_for_feature
returns it. -/
theorem get_variation_for_feature_first (env : Env) (config : ProjectConfig)
    (feature : FeatureFlag) (user : UserContext) (fvm : ForcedVariationMap)
    (options : List String) (ups : Option UserProfileService) (fuel : Nat)
    (ds : List (Decision × List String)) (events : List ProfileEvent)
    (h : get_variations_for_feature_list env config [feature] user fvm options
      ups fuel = some (ds, events)) :
    ∃ d, ds = [d] ∧
      get_variation_for_feature env config feature user fvm options ups fuel = some d := by
  have hlen : ds.length = 1 :=
    gvffl_length env config user fvm options fuel [feature] ups ds events h
  obtain ⟨d, hd⟩ := List.length_eq_one.mp hlen
  refine ⟨d, hd, ?_⟩
  simp [get_variation_for_feature, h, hd]

/-- Witness for C10 at a concrete singleton batch: the one returned pair is
exactly what get_variation_for_feature returns. -/
theorem get_variation_for_feature_first_witness :
    ∃ d, [(Decision.mk none none DecisionSource.ROLLOUT, ([] : List String))] = [d] ∧
      get_variation_for_feature envFalse cfg1 featZ user1 [] [] none 1 = some d :=
  get_variation_for_feature_first envFalse cfg1 featZ user1 [] [] none 1
    [(Decision.mk none none DecisionSource.ROLLOUT, [])] [] (by decide)

end Optimizely
